import Mathlib

/-!
Shallow embedding of the curator CLIP embedding server (src/clip/server.py).

The server exposes one gRPC method, GetImageEmbedding, which decodes the
request bytes as an image, converts the image to RGB when needed, preprocesses
it, runs the CLIP model, and returns the embedding vector.  A separate HTTP
listener answers health probes with 200 OK.  Configuration (ports, log level)
is read from the environment with fixed defaults.

External collaborators (PIL, the CLIP model, torch) are modelled as an
environment of opaque functions; their documented contracts appear as named
predicates and are assumed explicitly where a claim assumes them.  Python
exceptions are modelled with Except: an error value that the handler does not
catch corresponds to an exception escaping the handler.
-/

namespace ClipServer

/-- gRPC status codes used by the server (grpc.StatusCode). -/
inductive StatusCode
  | OK
  | INVALID_ARGUMENT
  | INTERNAL
  | UNKNOWN
  deriving DecidableEq

/-- The mutable per-call gRPC context: set_code and set_details write here. -/
structure RpcContext where
  code : Option StatusCode
  details : Option String
  deriving DecidableEq

/-- EmbeddingRequest proto message: one bytes field, image_data. -/
structure EmbeddingRequest where
  image_data : List Nat
  deriving DecidableEq

/-- EmbeddingResponse proto message: one repeated float field, embedding.
Real numbers are modelled as rationals.  The proto default is the empty list,
so the bare constructor call clip_pb2.EmbeddingResponse() yields embedding = []. -/
structure EmbeddingResponse where
  embedding : List ℚ
  deriving DecidableEq

/-- A decoded PIL image: its color mode string, its size and its pixel data. -/
structure PILImage where
  mode : String
  size : Nat × Nat
  data : List Nat
  deriving DecidableEq

/-- A torch tensor holding one preprocessed image, flattened. -/
abbrev Tensor := List ℚ

/-- A batch tensor: a list of rows. -/
abbrev Batch := List (List ℚ)

/-- The external collaborators the handler delegates to, as loaded once at
process start: PIL decoding and mode conversion, the CLIP preprocessing
function and the CLIP model.  Each fallible Python call is an Except value. -/
structure ClipEnv where
  D : Nat
  decode : List Nat → Except String PILImage
  convert : PILImage → String → Except String PILImage
  preprocess : PILImage → Except String Tensor
  encode_image : Batch → Except String Batch

/-- tensor.unsqueeze(0): wrap the preprocessed image into a batch of one. -/
def unsqueeze0 (t : Tensor) : Batch := [t]

/-- embedding.squeeze(0).cpu().tolist(): squeeze(0) drops the batch dimension
when it is 1, giving a flat list; an empty batch lists to []; a batch of more
than one row would stay nested and make the protobuf field assignment raise. -/
def squeezeTolist (embedding : Batch) : Except String (List ℚ) :=
  match embedding with
  | [] => Except.ok []
  | [v] => Except.ok v
  | _ => Except.error "TypeError: expected float, got list"

/-- Lines 46-48 of server.py: if image.mode is not RGB, image.convert(RGB),
otherwise the image is passed on unchanged. -/
def toRGB (env : ClipEnv) (image : PILImage) : Except String PILImage :=
  if image.mode ≠ "RGB" then env.convert image "RGB" else Except.ok image

/-- Lines 45-62 of server.py, the part after the try/except block: RGB
conversion, preprocessing, model inference and response construction.  Every
error here escapes the handler, since only decoding is inside the try. -/
def computeEmbedding (env : ClipEnv) (image : PILImage) :
    Except String EmbeddingResponse :=
  match toRGB env image with
  | Except.error e => Except.error e
  | Except.ok rgbImage =>
    match env.preprocess rgbImage with
    | Except.error e => Except.error e
    | Except.ok processed_image =>
      match env.encode_image (unsqueeze0 processed_image) with
      | Except.error e => Except.error e
      | Except.ok embedding =>
        match squeezeTolist embedding with
        | Except.error e => Except.error e
        | Except.ok embedding_vector =>
          Except.ok { embedding := embedding_vector }

/-- CLIPServiceServicer.GetImageEmbedding (lines 33-62 of server.py).  The
try/except around Image.open catches every decoding exception, records the
details string and the INVALID_ARGUMENT code on the context and returns an
empty EmbeddingResponse; on successful decode the rest of the pipeline runs
outside any exception handler and its result is paired with the untouched
context. -/
def GetImageEmbedding (env : ClipEnv) (request : EmbeddingRequest)
    (context : RpcContext) : Except String (EmbeddingResponse × RpcContext) :=
  match env.decode request.image_data with
  | Except.error e =>
      Except.ok ({ embedding := [] },
        { context with
            details := some ("Error reading image: " ++ e),
            code := some StatusCode.INVALID_ARGUMENT })
  | Except.ok image =>
      Except.map (fun response => (response, context)) (computeEmbedding env image)

/-- Stated contract of the opaque embedding model: same batch size in, same
batch size out, every output row of the fixed model dimensionality D. -/
def EncodeContract (env : ClipEnv) : Prop :=
  ∀ b r, env.encode_image b = Except.ok r →
    r.length = b.length ∧ ∀ v ∈ r, v.length = env.D

/-- Stated contract of PIL convert: converting to RGB yields an RGB image. -/
def ConvertContract (env : ClipEnv) : Prop :=
  ∀ image r, env.convert image "RGB" = Except.ok r → r.mode = "RGB"

/-! ### Health check listener (HealthCheckHandler, lines 64-77) -/

/-- Observable state of one HTTP exchange on the health listener: the status
line sent, the headers sent by the handler, the response body, and the
application log lines emitted while handling the request.  The automatic
Server and Date headers of the Python base class are elided. -/
structure HealthExchange where
  status : Option Nat
  headers : List (String × String)
  body : String
  appLogLines : List String
  deriving DecidableEq

/-- A fresh exchange: nothing sent yet. -/
def initialExchange : HealthExchange :=
  { status := none, headers := [], body := "", appLogLines := [] }

/-- HealthCheckHandler.log_message (lines 75-77): overridden to return
without producing any output, so every transport-level log call through this
hook emits no lines. -/
def log_message (format : String) (args : List String) : List String := []

/-- BaseHTTPRequestHandler.send_response: records the status code and routes
its per-request log line through the log_message hook. -/
def send_response (code : Nat) (ex : HealthExchange) : HealthExchange :=
  { ex with
      status := some code,
      appLogLines := ex.appLogLines ++ log_message "%s %s" [toString code] }

/-- BaseHTTPRequestHandler.send_header: appends one header. -/
def send_header (keyword value : String) (ex : HealthExchange) : HealthExchange :=
  { ex with headers := ex.headers ++ [(keyword, value)] }

/-- BaseHTTPRequestHandler.end_headers: flushes the header block; no further
observable field in this model. -/
def end_headers (ex : HealthExchange) : HealthExchange := ex

/-- self.wfile.write: appends to the response body. -/
def wfile_write (s : String) (ex : HealthExchange) : HealthExchange :=
  { ex with body := ex.body ++ s }

/-- HealthCheckHandler.do_GET (lines 68-73): send_response(200), a single
Content-type header, end_headers, then the body OK.  The request path is
never inspected. -/
def do_GET (path : String) (ex : HealthExchange) : HealthExchange :=
  wfile_write "OK" (end_headers (send_header "Content-type" "text/plain"
    (send_response 200 ex)))

/-- BaseHTTPRequestHandler.send_error, as used for a request the handler
class has no method for: a 501 status, an HTML error body, and a log line
routed through the overridden log_message hook. -/
def send_error (code : Nat) (message : String) (ex : HealthExchange) :
    HealthExchange :=
  { ex with
      status := some code,
      headers := ex.headers ++ [("Content-Type", "text/html;charset=utf-8")],
      body := ex.body ++ message,
      appLogLines := ex.appLogLines ++ log_message "code %d, message %s"
        [toString code, message] }

/-- Dispatch of BaseHTTPRequestHandler.handle_one_request, modelled from the
documented behaviour of the Python standard library: the request method is
looked up as a do_ method on the handler class; HealthCheckHandler defines
only do_GET, so every other method is answered by send_error 501. -/
def handle_one_request (command path : String) (ex : HealthExchange) :
    HealthExchange :=
  if command = "GET" then do_GET path ex
  else send_error 501 ("Unsupported method (" ++ command ++ ")") ex

/-! ### Configuration (lines 17-20 and 92-94) -/

/-- os.environ.get(key, default): lookup with a default. -/
def envGet (environ : List (String × String)) (key default : String) : String :=
  match environ.lookup key with
  | some v => v
  | none => default

/-- Value of a Python logging-module attribute: a level constant or a string. -/
inductive PyAttr
  | int (n : Nat)
  | str (s : String)
  deriving DecidableEq

/-- The all-uppercase attributes of the CPython logging module: the severity
level constants plus the BASIC_FORMAT string.  Only these are reachable from
the source, because the looked-up name has been upper-cased. -/
def loggingUpperAttrs : List (String × PyAttr) :=
  [("BASIC_FORMAT", PyAttr.str "%(levelname)s:%(name)s:%(message)s"),
   ("CRITICAL", PyAttr.int 50), ("FATAL", PyAttr.int 50),
   ("ERROR", PyAttr.int 40),
   ("WARNING", PyAttr.int 30), ("WARN", PyAttr.int 30),
   ("INFO", PyAttr.int 20), ("DEBUG", PyAttr.int 10),
   ("NOTSET", PyAttr.int 0)]

/-- str.upper() in Python, for the ASCII strings this configuration code
deals with: uppercase every character. -/
def upper (s : String) : String := String.mk (s.data.map Char.toUpper)

/-- getattr(logging, name, fallback) for an upper-cased name. -/
def getattr_logging (name : String) (fallback : PyAttr) : PyAttr :=
  match loggingUpperAttrs.lookup name with
  | some v => v
  | none => fallback

/-- The logging module name-to-level table used when a level is given by
name. -/
def nameToLevel : List (String × Nat) :=
  [("CRITICAL", 50), ("FATAL", 50), ("ERROR", 40), ("WARN", 30),
   ("WARNING", 30), ("INFO", 20), ("DEBUG", 10), ("NOTSET", 0)]

/-- logging._checkLevel, applied by basicConfig/setLevel: an int passes
through, a string must name a level or a ValueError is raised. -/
def checkLevel (v : PyAttr) : Except String Nat :=
  match v with
  | PyAttr.int n => Except.ok n
  | PyAttr.str s =>
    match nameToLevel.lookup s with
    | some n => Except.ok n
    | none => Except.error ("Unknown level: " ++ s)

/-- Lines 18-19 of server.py: read LOG_LEVEL with default INFO, upper-case
it, then getattr on the logging module with logging.INFO (20) as fallback. -/
def log_level (environ : List (String × String)) : PyAttr :=
  getattr_logging (upper (envGet environ "LOG_LEVEL" "INFO")) (PyAttr.int 20)

/-- Line 20 of server.py: logging.basicConfig(level=log_level) validates the
level value; a non-level string raises ValueError and aborts the import. -/
def basicConfig_level (environ : List (String × String)) : Except String Nat :=
  checkLevel (log_level environ)

/-- int(s) on an environment string. -/
def str_to_int (s : String) : Except String Int :=
  match s.toInt? with
  | some n => Except.ok n
  | none => Except.error ("invalid literal for int with base 10: " ++ s)

/-- Line 93 of server.py: int(os.environ.get(GRPC_PORT, 50051)); the default
is already an int. -/
def grpc_port (environ : List (String × String)) : Except String Int :=
  match environ.lookup "GRPC_PORT" with
  | some v => str_to_int v
  | none => Except.ok 50051

/-- Line 94 of server.py: int(os.environ.get(HEALTHCHECK_PORT, 8080)). -/
def healthcheck_port (environ : List (String × String)) : Except String Int :=
  match environ.lookup "HEALTHCHECK_PORT" with
  | some v => str_to_int v
  | none => Except.ok 8080

/-! ### Process bootstrap (module body and serve, lines 17-112) -/

/-- The externally observable bootstrap steps of the process, in order of
occurrence in the straight-line source. -/
inductive BootEvent
  | configureLogging
  | loadModel
  | startHealthListener
  | startGrpcListener
  | waitForTermination
  deriving DecidableEq

/-- Process states of the bootstrap state machine. -/
inductive ProcState
  | Starting
  | ModelLoaded
  | Serving
  deriving DecidableEq

/-- State reached after a bootstrap event. -/
def stepState (s : ProcState) (e : BootEvent) : ProcState :=
  match e with
  | BootEvent.loadModel => ProcState.ModelLoaded
  | BootEvent.startHealthListener => ProcState.Serving
  | BootEvent.startGrpcListener => ProcState.Serving
  | _ => s

/-- Order of the states along the bootstrap. -/
def stateRank (s : ProcState) : Nat :=
  match s with
  | ProcState.Starting => 0
  | ProcState.ModelLoaded => 1
  | ProcState.Serving => 2

/-- Module body of server.py: logging is configured (line 20), then the CLIP
model is loaded (line 26), before serve() is entered. -/
def moduleInitTrace : List BootEvent :=
  [BootEvent.configureLogging, BootEvent.loadModel]

/-- serve() (lines 88-109): start the health-check thread, then start the
gRPC server, then block in wait_for_termination. -/
def serveTrace : List BootEvent :=
  [BootEvent.startHealthListener, BootEvent.startGrpcListener,
   BootEvent.waitForTermination]

/-- The whole process: module import followed by serve(). -/
def processTrace : List BootEvent := moduleInitTrace ++ serveTrace

/-! ### Concrete test environments -/

/-- A concrete grayscale one-pixel image. -/
def imgL : PILImage := { mode := "L", size := (1, 1), data := [7] }

/-- A concrete RGB one-pixel image. -/
def imgRGB : PILImage := { mode := "RGB", size := (1, 1), data := [7, 7, 7] }

/-- A concrete environment whose collaborators all succeed: decoding yields
the grayscale image, conversion rewrites the mode, the model maps every row
of a batch to a fixed vector of length two. -/
def okEnv : ClipEnv :=
  { D := 2,
    decode := fun _ => Except.ok imgL,
    convert := fun image _ => Except.ok { image with mode := "RGB" },
    preprocess := fun _ => Except.ok [1, 2, 3],
    encode_image := fun b => Except.ok (b.map (fun _ => [5, 9])) }

/-- A concrete environment whose decoder always fails, as PIL does on bytes
that are not an image. -/
def badDecodeEnv : ClipEnv :=
  { D := 2,
    decode := fun _ => Except.error "cannot identify image file",
    convert := fun image _ => Except.ok image,
    preprocess := fun _ => Except.ok [],
    encode_image := fun b => Except.ok b }

/-- A concrete environment whose preprocessing step raises after a
successful decode. -/
def badPreprocessEnv : ClipEnv :=
  { D := 2,
    decode := fun _ => Except.ok imgRGB,
    convert := fun image _ => Except.ok image,
    preprocess := fun _ => Except.error "RuntimeError: size mismatch",
    encode_image := fun b => Except.ok b }

theorem okEnv_encode_contract : EncodeContract okEnv := by
  intro b r h
  simp only [okEnv] at h
  injection h with h
  subst h
  refine ⟨List.length_map _ _, ?_⟩
  intro v hv
  rcases List.mem_map.mp hv with ⟨t, ht, rfl⟩
  rfl

theorem okEnv_convert_contract : ConvertContract okEnv := by
  intro image r h
  simp only [okEnv] at h
  injection h with h
  subst h
  rfl

/-- Helper: under the model contract, a successful run of the post-decode
pipeline yields a vector of the model dimensionality D. -/
theorem computeEmbedding_length (env : ClipEnv) (image : PILImage)
    (response : EmbeddingResponse)
    (hcontract : EncodeContract env)
    (h : computeEmbedding env image = Except.ok response) :
    response.embedding.length = env.D := by
  unfold computeEmbedding at h
  split at h
  · exact absurd h (by simp)
  · split at h
    · exact absurd h (by simp)
    · split at h
      · exact absurd h (by simp)
      · rename_i embedding henc
        obtain ⟨hlen, hrows⟩ := hcontract _ _ henc
        have h1 : embedding.length = 1 := by
          rw [hlen]; rfl
        rcases List.length_eq_one.mp h1 with ⟨v, rfl⟩
        simp only [squeezeTolist] at h
        injection h with h
        have hv : v.length = env.D := hrows v (by simp)
        rw [← h]
        exact hv

/-- Helper: projecting away the context component makes the two pairings of
one pipeline result with different contexts equal. -/
theorem map_fst_pair (x : Except String EmbeddingResponse)
    (c1 c2 : RpcContext) :
    Except.map Prod.fst (Except.map (fun r => (r, c1)) x) =
      Except.map Prod.fst (Except.map (fun r => (r, c2)) x) := by
  cases x <;> rfl

/-- Helper: basicConfig_level on an environment that sets LOG_LEVEL reduces
to validating the getattr of the upper-cased value. -/
theorem basicConfig_level_set (s : String) :
    basicConfig_level [("LOG_LEVEL", s)] =
      checkLevel (getattr_logging (upper s) (PyAttr.int 20)) := rfl

/-! ### Claims -/

/-- Claim C1: whenever decoding the request bytes fails, GetImageEmbedding
returns (does not raise) an EmbeddingResponse with an empty embedding, and
the call context carries the INVALID_ARGUMENT status code together with the
human-readable details string built from the decode error. -/
theorem getImageEmbedding_decode_failure (env : ClipEnv)
    (request : EmbeddingRequest) (context : RpcContext) (e : String)
    (hdec : env.decode request.image_data = Except.error e) :
    GetImageEmbedding env request context =
      Except.ok ({ embedding := [] },
        { context with
            details := some ("Error reading image: " ++ e),
            code := some StatusCode.INVALID_ARGUMENT }) := by
  unfold GetImageEmbedding
  rw [hdec]

/-- Witness for C1 at a concrete non-image byte blob. -/
theorem getImageEmbedding_decode_failure_witness :
    GetImageEmbedding badDecodeEnv { image_data := [0, 1, 2] }
        { code := none, details := none } =
      Except.ok ({ embedding := [] },
        { code := some StatusCode.INVALID_ARGUMENT,
          details := some "Error reading image: cannot identify image file" }) :=
  getImageEmbedding_decode_failure badDecodeEnv { image_data := [0, 1, 2] }
    { code := none, details := none } "cannot identify image file" rfl

/-- Claim C2: for every request that decodes successfully and completes, the
embedding in the response has length equal to the loaded model's output
dimensionality D, under the stated model contract; in particular the length
does not depend on the input image. -/
theorem getImageEmbedding_embedding_length (env : ClipEnv)
    (request : EmbeddingRequest) (context ctx2 : RpcContext)
    (image : PILImage) (response : EmbeddingResponse)
    (hcontract : EncodeContract env)
    (hdec : env.decode request.image_data = Except.ok image)
    (hrun : GetImageEmbedding env request context =
      Except.ok (response, ctx2)) :
    response.embedding.length = env.D := by
  unfold GetImageEmbedding at hrun
  split at hrun
  · rename_i e heq
    rw [hdec] at heq
    cases heq
  · rename_i image2 heq
    rw [hdec] at heq
    injection heq with heq
    subst heq
    cases hce : computeEmbedding env image with
    | error e =>
      rw [hce] at hrun
      exact absurd hrun (by simp [Except.map])
    | ok r =>
      rw [hce] at hrun
      simp [Except.map] at hrun
      obtain ⟨hr, hc⟩ := hrun
      subst hr
      exact computeEmbedding_length env image _ hcontract hce

/-- Witness for C2 on the concrete successful environment. -/
theorem getImageEmbedding_embedding_length_witness :
    ({ embedding := [5, 9] } : EmbeddingResponse).embedding.length = okEnv.D :=
  getImageEmbedding_embedding_length okEnv { image_data := [3] }
    { code := none, details := none } { code := none, details := none }
    imgL { embedding := [5, 9] } okEnv_encode_contract rfl rfl

/-- Claim C3: the handler applies PIL convert exactly when the decoded mode
is not RGB, so every image handed to preprocessing is RGB under the PIL
contract, and an already-RGB image is passed through unchanged. -/
theorem getImageEmbedding_rgb_conversion (env : ClipEnv)
    (hconv : ConvertContract env) :
    (∀ image r, toRGB env image = Except.ok r → r.mode = "RGB") ∧
    (∀ image, image.mode = "RGB" → toRGB env image = Except.ok image) := by
  constructor
  · intro image r h
    unfold toRGB at h
    by_cases hm : image.mode = "RGB"
    · rw [if_neg (by simp [hm])] at h
      injection h with h
      rw [← h]
      exact hm
    · rw [if_pos hm] at h
      exact hconv image r h
  · intro image hm
    unfold toRGB
    rw [if_neg (by simp [hm])]

/-- Witness for C3: a grayscale image is converted to RGB mode, an RGB image
passes through toRGB unchanged. -/
theorem getImageEmbedding_rgb_conversion_witness :
    toRGB okEnv imgRGB = Except.ok imgRGB ∧
    ({ imgL with mode := "RGB" } : PILImage).mode = "RGB" :=
  ⟨(getImageEmbedding_rgb_conversion okEnv okEnv_convert_contract).2
      imgRGB rfl,
   (getImageEmbedding_rgb_conversion okEnv okEnv_convert_contract).1
      imgL { imgL with mode := "RGB" } rfl⟩

/-- Claim C4 counterexample: a POST probe reaching the liveness listener is
not answered 200/OK: the handler class defines only do_GET, so the dispatch
answers 501, refuting that the responder returns 200 regardless of HTTP
method. -/
theorem healthcheck_non_get_not_ok :
    (handle_one_request "POST" "/" initialExchange).status = some 501 ∧
    (handle_one_request "POST" "/" initialExchange).status ≠ some 200 ∧
    (handle_one_request "POST" "/" initialExchange).body ≠ "OK" := by
  decide

/-- Claim C4 as amended: every GET probe, regardless of request path, is
answered with status 200, a Content-type text/plain header and body exactly
OK; any other method has no registered handler and is answered 501 by the
transport dispatch. -/
theorem healthcheck_get_ok (path command : String) :
    handle_one_request "GET" path initialExchange =
      { status := some 200, headers := [("Content-type", "text/plain")],
        body := "OK", appLogLines := [] } ∧
    (command ≠ "GET" →
      (handle_one_request command path initialExchange).status = some 501) := by
  constructor
  · rfl
  · intro hc
    unfold handle_one_request
    rw [if_neg hc]
    rfl

/-- Witness for C4 as amended, at a concrete path and method. -/
theorem healthcheck_get_ok_witness :
    handle_one_request "GET" "/healthz" initialExchange =
      { status := some 200, headers := [("Content-type", "text/plain")],
        body := "OK", appLogLines := [] } ∧
    (handle_one_request "POST" "/healthz" initialExchange).status = some 501 :=
  ⟨(healthcheck_get_ok "/healthz" "POST").1,
   (healthcheck_get_ok "/healthz" "POST").2 (by decide)⟩

/-- Claim C5: two requests with byte-for-byte identical image data yield the
same response, whatever the per-call contexts: the handler is a pure
function of the image bytes and the process-wide model environment. -/
theorem getImageEmbedding_deterministic (env : ClipEnv)
    (req1 req2 : EmbeddingRequest) (ctx1 ctx2 : RpcContext)
    (h : req1.image_data = req2.image_data) :
    Except.map Prod.fst (GetImageEmbedding env req1 ctx1) =
      Except.map Prod.fst (GetImageEmbedding env req2 ctx2) := by
  cases req1 with
  | mk d1 =>
    cases req2 with
    | mk d2 =>
      obtain rfl : d1 = d2 := h
      unfold GetImageEmbedding
      cases hdec : env.decode d1 with
      | error e => rfl
      | ok image => exact map_fst_pair (computeEmbedding env image) ctx1 ctx2

/-- Witness for C5: the same bytes with two different call contexts. -/
theorem getImageEmbedding_deterministic_witness :
    Except.map Prod.fst (GetImageEmbedding okEnv { image_data := [3] }
        { code := none, details := none }) =
      Except.map Prod.fst (GetImageEmbedding okEnv { image_data := [3] }
        { code := some StatusCode.OK, details := some "x" }) :=
  getImageEmbedding_deterministic okEnv { image_data := [3] }
    { image_data := [3] } { code := none, details := none }
    { code := some StatusCode.OK, details := some "x" } rfl

/-- Claim C6: along the process bootstrap trace the model is loaded exactly
once, the load precedes the start of both listeners, and the induced state
sequence Starting, ModelLoaded, Serving never moves backwards. -/
theorem bootstrap_order :
    processTrace.count BootEvent.loadModel = 1 ∧
    processTrace.indexOf BootEvent.loadModel <
      processTrace.indexOf BootEvent.startHealthListener ∧
    processTrace.indexOf BootEvent.loadModel <
      processTrace.indexOf BootEvent.startGrpcListener ∧
    List.Chain' (fun s t => stateRank s ≤ stateRank t)
      (processTrace.scanl stepState ProcState.Starting) := by
  refine ⟨by decide, by decide, by decide, ?_⟩
  show List.Chain' (fun s t => stateRank s ≤ stateRank t)
    [ProcState.Starting, ProcState.Starting, ProcState.ModelLoaded,
     ProcState.Serving, ProcState.Serving, ProcState.Serving]
  simp [List.chain'_cons, List.chain'_singleton, stateRank]

/-- Claim C7: with the corresponding variable unset, the gRPC port defaults
to 50051, the health-check port to 8080, and the configured log level to
logging.INFO (20). -/
theorem config_defaults (environ : List (String × String))
    (h1 : environ.lookup "GRPC_PORT" = none)
    (h2 : environ.lookup "HEALTHCHECK_PORT" = none)
    (h3 : environ.lookup "LOG_LEVEL" = none) :
    grpc_port environ = Except.ok 50051 ∧
    healthcheck_port environ = Except.ok 8080 ∧
    basicConfig_level environ = Except.ok 20 := by
  refine ⟨?_, ?_, ?_⟩
  · unfold grpc_port
    rw [h1]
  · unfold healthcheck_port
    rw [h2]
  · unfold basicConfig_level log_level envGet
    rw [h3]
    rfl

/-- Witness for C7: the empty environment. -/
theorem config_defaults_witness :
    grpc_port [] = Except.ok 50051 ∧
    healthcheck_port [] = Except.ok 8080 ∧
    basicConfig_level [] = Except.ok 20 :=
  config_defaults [] rfl rfl rfl

/-- Claim C8: handling a probe on the liveness listener emits no application
log lines for any method and path, and the overridden log_message hook
produces no output on any input. -/
theorem healthcheck_no_log_lines (command path fmt : String)
    (args : List String) :
    (handle_one_request command path initialExchange).appLogLines = [] ∧
    log_message fmt args = [] := by
  constructor
  · unfold handle_one_request
    by_cases h : command = "GET"
    · rw [if_pos h]; rfl
    · rw [if_neg h]; rfl
  · rfl

/-- Claim C9 counterexample: LOG_LEVEL=basic_format upper-cases to
BASIC_FORMAT, which is an attribute of the logging module but not a severity
level, so getattr returns its format string and basicConfig raises
ValueError instead of falling back to INFO. -/
theorem log_level_non_level_attribute_raises :
    basicConfig_level [("LOG_LEVEL", "basic_format")] =
      Except.error "Unknown level: %(levelname)s:%(name)s:%(message)s" ∧
    basicConfig_level [("LOG_LEVEL", "basic_format")] ≠ Except.ok 20 := by
  have h1 : basicConfig_level [("LOG_LEVEL", "basic_format")] =
      Except.error "Unknown level: %(levelname)s:%(name)s:%(message)s" := rfl
  refine ⟨h1, ?_⟩
  rw [h1]
  simp

/-- Claim C9 as amended: the LOG_LEVEL value is upper-cased before lookup,
so the configured level depends only on the upper-cased form; a value whose
upper-cased form is not an attribute of the logging module falls back to the
informational default 20 without error.  A value naming a non-level logging
attribute, such as BASIC_FORMAT, instead raises ValueError at startup. -/
theorem log_level_upper_and_fallback :
    (∀ s1 s2 : String, upper s1 = upper s2 →
      basicConfig_level [("LOG_LEVEL", s1)] =
        basicConfig_level [("LOG_LEVEL", s2)]) ∧
    (∀ s : String, loggingUpperAttrs.lookup (upper s) = none →
      basicConfig_level [("LOG_LEVEL", s)] = Except.ok 20) := by
  constructor
  · intro s1 s2 h
    rw [basicConfig_level_set, basicConfig_level_set, h]
  · intro s h
    rw [basicConfig_level_set]
    unfold getattr_logging
    rw [h]
    rfl

/-- Witness for C9 as amended: lower-case debug equals upper-case DEBUG, and
an unknown name falls back to 20. -/
theorem log_level_upper_and_fallback_witness :
    basicConfig_level [("LOG_LEVEL", "debug")] =
      basicConfig_level [("LOG_LEVEL", "DEBUG")] ∧
    basicConfig_level [("LOG_LEVEL", "TRACE")] = Except.ok 20 :=
  ⟨log_level_upper_and_fallback.1 "debug" "DEBUG" rfl,
   log_level_upper_and_fallback.2 "TRACE" rfl⟩

/-- Claim C10: after a successful decode, an error raised by RGB conversion,
by preprocessing, or by model inference propagates out of GetImageEmbedding
uncaught, rather than being converted into a structured error response. -/
theorem getImageEmbedding_post_decode_propagates (env : ClipEnv)
    (request : EmbeddingRequest) (context : RpcContext) (image : PILImage)
    (e : String)
    (hdec : env.decode request.image_data = Except.ok image) :
    (toRGB env image = Except.error e →
      GetImageEmbedding env request context = Except.error e) ∧
    (∀ rgbImage, toRGB env image = Except.ok rgbImage →
      env.preprocess rgbImage = Except.error e →
      GetImageEmbedding env request context = Except.error e) ∧
    (∀ rgbImage t, toRGB env image = Except.ok rgbImage →
      env.preprocess rgbImage = Except.ok t →
      env.encode_image (unsqueeze0 t) = Except.error e →
      GetImageEmbedding env request context = Except.error e) := by
  have hmain : ∀ e2 : String, computeEmbedding env image = Except.error e2 →
      GetImageEmbedding env request context = Except.error e2 := by
    intro e2 hce
    simp only [GetImageEmbedding, hdec, hce, Except.map]
  refine ⟨?_, ?_, ?_⟩
  · intro h
    apply hmain
    simp only [computeEmbedding, h]
  · intro rgbImage h1 h2
    apply hmain
    simp only [computeEmbedding, h1, h2]
  · intro rgbImage t h1 h2 h3
    apply hmain
    simp only [computeEmbedding, h1, h2, h3]

/-- Witness for C10: a concrete environment whose preprocessing raises after
a successful decode; the error escapes the handler. -/
theorem getImageEmbedding_post_decode_propagates_witness :
    GetImageEmbedding badPreprocessEnv { image_data := [1] }
        { code := none, details := none } =
      Except.error "RuntimeError: size mismatch" :=
  (getImageEmbedding_post_decode_propagates badPreprocessEnv
      { image_data := [1] } { code := none, details := none } imgRGB
      "RuntimeError: size mismatch" rfl).2.1 imgRGB rfl rfl

end ClipServer
